import Mathlib

set_option maxRecDepth 8000

/-!
Verification development for the BoyacaFenix forest-fire dashboard
(`src/app.py`).  The tabular pipeline (fetch, schema normalisation,
filtering, coverage aggregation, municipal aggregation, geo-join and
correlation labelling) is shallowly embedded over an explicit table type:
a header of column names plus rows of cell values.  Pandas/NumPy cell
semantics that the pipeline relies on (coercion failures degrading to
missing, `NaN`/`NaT` propagation, `KeyError` on a missing column) are made
explicit; external library internals (the exact calendar arithmetic of the
pandas date parser, float printing) are modelled by simple executable
stand-ins, which no theorem below depends on.
-/

/-- Cell values of a data frame: raw strings, parsed timestamps (as an
abstract rational ordinal), times of day (minutes, rationally), rational
numbers, booleans, and the missing value (`NaN` / `NaT`). -/
inductive Value where
  | vstr (s : String)
  | vdate (d : ℚ)
  | vtime (t : ℚ)
  | vnum (q : ℚ)
  | vbool (b : Bool)
  | vmissing
deriving DecidableEq, Repr

/-- A data frame: a list of column names and rows of cell values, each row
aligned positionally with the header. -/
structure Table where
  cols : List String
  rows : List (List Value)
deriving DecidableEq, Repr

/-- Well-formedness of a table: every row has exactly one cell per column. -/
def Table.Aligned (t : Table) : Prop :=
  ∀ r ∈ t.rows, r.length = t.cols.length

instance (t : Table) : Decidable t.Aligned :=
  inferInstanceAs (Decidable (∀ r ∈ t.rows, r.length = t.cols.length))

/-- Reads the cell of row `r` at column `c` (header `cols`); absent columns
read as missing, like a `NaN` cell. -/
def rowCell (cols : List String) (r : List Value) (c : String) : Value :=
  (((cols.zip r).find? (fun p => p.1 = c)).map Prod.snd).getD .vmissing

/-- Reads the cell at row index `k` and column `c` of a table. -/
def Table.cell (t : Table) (k : Nat) (c : String) : Value :=
  rowCell t.cols (t.rows.getD k []) c

/-- Assigns `df[c] = f(df[c])` when column `c` exists (all cells of the
column are rewritten by `f`); a table without the column is untouched. -/
def Table.mapCol (t : Table) (c : String) (f : Value → Value) : Table :=
  if c ∈ t.cols then
    { cols := t.cols
      rows := t.rows.map (fun r =>
        (t.cols.zip r).map (fun p => if p.1 = c then f p.2 else p.2)) }
  else t

/-- Runs `df.drop(columns=names)` (columns present in `names` are removed,
together with the matching cell of every row). -/
def Table.dropColumns (t : Table) (names : List String) : Table :=
  { cols := t.cols.filter (fun c => !(names.contains c))
    rows := t.rows.map (fun r =>
      ((t.cols.zip r).filter (fun p => !(names.contains p.1))).map Prod.snd) }

/-- Runs the loop `for col in cs: if col in df.columns: df[col] = f(df[col])`. -/
def applyCols (cs : List String) (f : Value → Value) (t : Table) : Table :=
  cs.foldl (fun acc c => acc.mapCol c f) t

/-- Splits a character list at every occurrence of the separator, keeping
empty chunks, like `String.splitOn` on single-character separators. -/
def splitOnChar (sep : Char) : List Char → List (List Char)
  | [] => [[]]
  | c :: rest =>
    let r := splitOnChar sep rest
    if c = sep then [] :: r
    else
      match r with
      | [] => [[c]]
      | g :: gs => (c :: g) :: gs

/-- Parses a nonempty all-digit character list to a natural number. -/
def digitsToNat (cs : List Char) : Option Nat :=
  if cs ≠ [] ∧ cs.all Char.isDigit then
    some (cs.foldl (fun n c => 10 * n + (c.toNat - 48)) 0)
  else none

/-- Parses a decimal literal (optional sign, digits, optional fractional
part) to a rational; anything else fails, like `pd.to_numeric(errors="coerce")`. -/
def parseRat (s : String) : Option ℚ :=
  let core (b : List Char) : Option ℚ :=
    match splitOnChar (Char.ofNat 46) b with
    | [w] => (digitsToNat w).map (fun n => (n : ℚ))
    | [w, f] =>
      match digitsToNat w, digitsToNat f with
      | some wn, some fn => some ((wn : ℚ) + (fn : ℚ) / ((10 : ℚ) ^ f.length))
      | _, _ => none
    | _ => none
  match s.toList with
  | c :: rest => if c = Char.ofNat 45 then (core rest).map (fun q => -q) else core (c :: rest)
  | [] => none

/-- Models the pandas timestamp parser on `YYYY-MM-DD...` strings as an
abstract monotone ordinal; unparseable strings fail (become missing).  No
theorem depends on the calendar details of this stand-in. -/
def parseDateISO (s : String) : Option ℚ :=
  match splitOnChar (Char.ofNat 45) (s.toList.take 10) with
  | [y, m, d] =>
    match digitsToNat y, digitsToNat m, digitsToNat d with
    | some yn, some mn, some dn =>
      if 1 ≤ mn ∧ mn ≤ 12 ∧ 1 ≤ dn ∧ dn ≤ 31 then
        some ((yn : ℚ) * 372 + (mn : ℚ) * 31 + (dn : ℚ))
      else none
    | _, _, _ => none
  | _ => none

/-- Parses an `HH:MM` string (the `%H:%M` format) to minutes past midnight. -/
def parseTimeHM (s : String) : Option ℚ :=
  match splitOnChar (Char.ofNat 58) s.toList with
  | [h, m] =>
    match digitsToNat h, digitsToNat m with
    | some hn, some mn =>
      if hn < 24 ∧ mn < 60 then some ((hn : ℚ) * 60 + (mn : ℚ)) else none
    | _, _ => none
  | _ => none

/-- Cell semantics of `pd.to_datetime(x, errors="coerce")`: timestamps pass
through, strings parse or degrade to missing, numbers are read as epoch
offsets, and times, booleans and missing values coerce to `NaT`. -/
def toDatetime : Value → Value
  | .vdate d => .vdate d
  | .vstr s => match parseDateISO s with
    | some d => .vdate d
    | none => .vmissing
  | .vnum q => .vdate q
  | _ => .vmissing

/-- Cell semantics of `pd.to_datetime(x, format="%H:%M", errors="coerce").dt.time`:
a matching string parses to a time of day, an existing timestamp passes
through and its time part is extracted, and everything else — including an
already-parsed time value — coerces to `NaT` (missing). -/
def toTimeHM : Value → Value
  | .vstr s => match parseTimeHM s with
    | some q => .vtime q
    | none => .vmissing
  | .vdate d => .vtime (d - (⌊d⌋ : ℚ))
  | _ => .vmissing

/-- Cell semantics of `astype(str)`: every cell becomes its string
rendering; in particular a missing cell becomes the literal string `"nan"`. -/
def toStr : Value → Value
  | .vstr s => .vstr s
  | .vmissing => .vstr "nan"
  | .vnum q => .vstr (toString q)
  | .vdate d => .vstr (toString d)
  | .vtime t => .vstr (toString t)
  | .vbool b => .vstr (if b then "True" else "False")

/-- Cell semantics of `astype(bool)` (Python truthiness): a string is true
iff nonempty, `NaN` is true, numbers are true iff nonzero, and date/time
objects are true. -/
def toBoolV : Value → Value
  | .vstr s => .vbool (if s = "" then false else true)
  | .vmissing => .vbool true
  | .vbool b => .vbool b
  | .vnum q => .vbool (if q = 0 then false else true)
  | .vdate _ => .vbool true
  | .vtime _ => .vbool true

/-- Cell semantics of `pd.to_numeric(x, errors="coerce")`: numbers pass
through, strings parse or degrade to missing, booleans become 1/0, and
date/time/missing cells degrade to missing. -/
def toNumeric : Value → Value
  | .vnum q => .vnum q
  | .vstr s => match parseRat s with
    | some q => .vnum q
    | none => .vmissing
  | .vbool b => .vnum (if b then 1 else 0)
  | _ => .vmissing

/-- Date columns converted by `process_data_types`. -/
def date_columns : List String :=
  ["fecha_del_reporte", "fecha_de_inicio", "fecha_de_finalizaci_n"]

/-- Time-of-day columns converted by `process_data_types`. -/
def time_columns : List String :=
  ["hora_de_inicio", "hora_de_finalizaci_n"]

/-- String columns converted by `process_data_types`. -/
def string_columns : List String :=
  ["municipio", "tipo_de_incendio", "causa_del_incendio", "estado"]

/-- Numeric (hectare/area/elevation) columns converted by `process_data_types`. -/
def numeric_columns : List String :=
  ["tejido_urbano_contin_o_ha", "tejido_urbano_discontinuo", "zonas_industriales_o",
   "red_vial_ferroviaria_y", "zonas_portuarias_ha", "aeropuertos_ha",
   "obras_hidr_ulicas_ha", "zonas_de_extracci_n_minera", "zonas_de_disposici_n_de",
   "zonas_verdes_urbanas_y_o", "instalaciones_recreativas", "otros_cultivos_transitorios",
   "cereales_ha", "oleaginosas_y_leguminosas", "hortalizas_ha", "tub_rculos_ha",
   "otros_cultivos_permanentes", "ca_a_ha", "pl_tano_y_banano_ha", "tabaco_ha",
   "papaya_ha", "amapola_ha", "otros_cultivos_permanentes_1", "caf_ha", "cacao_ha",
   "vi_edos_ha", "otros_cultivos_permanentes_2", "palma_de_aceite_ha", "c_tricos_ha",
   "mango_ha", "cultivos_agroforestales_ha", "cultivos_confinados_ha",
   "pastos_limpios_ha", "pastos_arbolados_ha", "pastos_enmalezados_ha",
   "mosaico_de_cultivos_ha", "mosaico_de_pastos_y_cultivos", "mosaico_de_cultivos_pastos",
   "mosaico_de_pastos_con_espacios", "mosaico_de_cultivos_con", "bosque_denso_alto_de_tierra",
   "bosque_denso_alto_inundable", "bosque_denso_bajo_de_tierra", "bosque_denso_bajo_inundable",
   "bosque_abierto_alto_de_tierra", "bosque_abierto_alto_inundable", "bosque_abierto_bajo_de_tierra",
   "bosque_abierto_bajo_inundable", "bosque_fragmentado_ha", "bosque_de_galer_a_o_ripario",
   "acacia_ha", "araucaria_ha", "caucho_ha", "ceiba_ha", "cipr_s_ha", "eucalipto_ha",
   "flormorado_ha", "guadua_plantada_ha", "melina_ha", "nogal_ha", "pino_ha", "teca_ha",
   "herbazal_denso_de_tierra", "herbazal_denso_de_tierra_1", "herbazal_denso_de_tierra_2",
   "herbazal_denso_inundable", "herbazal_denso_inundable_1", "arracachal_ha", "helechal_ha",
   "herbazal_abierto_arenoso", "herbazal_abierto_rocoso_ha", "arbustal_denso_ha", "arbustal_abierto_ha",
   "vegetaci_n_secundaria_o_en", "zonas_arenosas_naturales", "afloramientos_rocosos_ha",
   "tierras_desnudas_y_degradadas", "zonas_quemadas_ha", "zonas_glaciares_y_nivales",
   "zonas_pantanosas_ha", "turberas_ha", "vegetaci_n_acu_tica_sobre", "pantanos_costeros_ha",
   "salitral_ha", "sedimentos_expuestos_en_baja", "bosque_natural_denso_ha", "bosque_intervenido_ha",
   "bosque_plantado_ha", "bosque_seco_ha", "cultivos_ha", "paramos_ha", "sabanas_y_pastizales_ha",
   "pastos_mejorados_ha", "rastrojos_ha", "vegetaci_n_seca_ha", "sabanas_pastizales_ha",
   "pastos_manejados_ha", "coberturas_sin_determinar", "rea_total_afectada_ha",
   "altura_minima_en_m_s_n_m", "altura_maxima_en_m_s_n_m"]

/-- Administrative columns removed at the end of `process_data_types`. -/
def columnas_a_eliminar : List String :=
  ["observaciones", "consecutivo", "entidad", "departamento"]

/-- Schema Normalizer (`process_data_types` of `src/app.py`): converts the
three date columns, the two time columns, the four string columns, the
protected-area boolean flag and the ~90 numeric columns (each only if
present), then drops the administrative columns. -/
def process_data_types (t : Table) : Table :=
  let t1 := applyCols date_columns toDatetime t
  let t2 := applyCols time_columns toTimeHM t1
  let t3 := applyCols string_columns toStr t2
  let t4 := t3.mapCol "localizado_dentro_de_rea" toBoolV
  let t5 := applyCols numeric_columns toNumeric t4
  t5.dropColumns columnas_a_eliminar

deriving instance DecidableEq for Except

/-- Key columns whose missing values make `load_data` drop a row. -/
def key_columns : List String := ["departamento", "municipio", "fecha_reporte"]

/-- Remote Fetcher (`load_data` of `src/app.py`).  The network fetch and
record parsing are an effect, passed in as an `Except`: an exception in the
`try` block yields an empty frame plus a user-visible error flag; a fetched
frame has its report timestamp parsed and rows missing any present key
column dropped.  The second component records whether `st.error` fired. -/
def load_data (fetch : Except String Table) : Table × Bool :=
  match fetch with
  | .error _ => ({ cols := [], rows := [] }, true)
  | .ok df =>
    let df1 := df.mapCol "fecha_reporte" toDatetime
    let present := key_columns.filter (fun c => df1.cols.contains c)
    let df2 :=
      if present.isEmpty then df1
      else { cols := df1.cols
             rows := df1.rows.filter (fun r =>
               present.all (fun c => decide (rowCell df1.cols r c ≠ .vmissing))) }
    (df2, false)

/-- Cell semantics of `Series.isin(sel)` on the region column: a string
cell is selected iff it is a member of the selection; a missing cell never is. -/
def isinStr (v : Value) (sel : List String) : Bool :=
  match v with
  | .vstr s => sel.contains s
  | _ => false

/-- Cell semantics of the two timestamp comparisons of `create_filters`: a
parsed timestamp is compared against the inclusive range endpoints; a
missing (`NaT`) or unparsed cell compares false. -/
def dateInRange (v : Value) (d1 d2 : ℚ) : Bool :=
  match v with
  | .vdate d => decide (d1 ≤ d) && decide (d ≤ d2)
  | _ => false

/-- Filter Engine (`create_filters` of `src/app.py`): reading the region
column raises a `KeyError` when it is absent; otherwise rows are kept when
the region is in the selected set and — only if the report-timestamp column
exists — the timestamp lies within the inclusive range. -/
def create_filters (t : Table) (sel : List String) (d1 d2 : ℚ) : Except String Table :=
  if "departamento" ∈ t.cols then
    if "fecha_reporte" ∈ t.cols then
      .ok { cols := t.cols
            rows := t.rows.filter (fun r =>
              isinStr (rowCell t.cols r "departamento") sel
                && dateInRange (rowCell t.cols r "fecha_reporte") d1 d2) }
    else
      .ok { cols := t.cols
            rows := t.rows.filter (fun r => isinStr (rowCell t.cols r "departamento") sel) }
  else .error "KeyError: departamento"

/-- Forest fields of the `Bosques` coverage bucket. -/
def bosques_fields : List String :=
  ["bosque_denso_alto_de_tierra", "bosque_denso_alto_inundable", "bosque_denso_bajo_de_tierra",
   "bosque_denso_bajo_inundable", "bosque_abierto_alto_de_tierra", "bosque_abierto_alto_inundable",
   "bosque_abierto_bajo_de_tierra", "bosque_abierto_bajo_inundable", "bosque_fragmentado_ha",
   "bosque_de_galer_a_o_ripario", "bosque_natural_denso_ha", "bosque_intervenido_ha",
   "bosque_plantado_ha", "bosque_seco_ha"]

/-- Crop fields of the `Cultivos` coverage bucket. -/
def cultivos_fields : List String :=
  ["cultivos_ha", "otros_cultivos_transitorios", "cereales_ha", "oleaginosas_y_leguminosas",
   "hortalizas_ha", "tub_rculos_ha", "otros_cultivos_permanentes", "caf_ha", "cacao_ha",
   "ca_a_ha", "pl_tano_y_banano_ha", "tabaco_ha", "palma_de_aceite_ha", "papaya_ha",
   "mango_ha", "cultivos_agroforestales_ha", "cultivos_confinados_ha"]

/-- Pasture fields of the `Pastos` coverage bucket. -/
def pastos_fields : List String :=
  ["pastos_limpios_ha", "pastos_arbolados_ha", "pastos_enmalezados_ha",
   "mosaico_de_pastos_y_cultivos", "mosaico_de_cultivos_pastos", "mosaico_de_pastos_con_espacios",
   "pastos_mejorados_ha", "pastos_manejados_ha", "sabanas_y_pastizales_ha", "sabanas_pastizales_ha"]

/-- Urban fields of the `Zonas urbanas` coverage bucket. -/
def zonas_urbanas_fields : List String :=
  ["tejido_urbano_contin_o_ha", "tejido_urbano_discontinuo", "zonas_industriales_o",
   "zonas_portuarias_ha", "aeropuertos_ha", "zonas_de_disposici_n_de",
   "zonas_verdes_urbanas_y_o", "instalaciones_recreativas"]

/-- Remaining fields of the `Otras coberturas` coverage bucket. -/
def otras_coberturas_fields : List String :=
  ["zonas_quemadas_ha", "paramos_ha", "vegetaci_n_seca_ha", "vegetaci_n_acu_tica_sobre",
   "tierras_desnudas_y_degradadas", "afloramientos_rocosos_ha"]

/-- Coverage buckets in the fixed iteration order of the source dictionary. -/
def coverage_buckets : List (String × List String) :=
  [("Bosques", bosques_fields), ("Cultivos", cultivos_fields), ("Pastos", pastos_fields),
   ("Zonas urbanas", zonas_urbanas_fields), ("Otras coberturas", otras_coberturas_fields)]

/-- Numeric reading of a cell under summation: after normalisation the
coverage fields hold numbers or missing values, and `sum` skips missing
cells, i.e. counts them as zero. -/
def numVal (v : Value) : ℚ :=
  match v with
  | .vnum q => q
  | _ => 0

/-- Sums one named column of a table, missing cells counting as zero. -/
def sumField (t : Table) (f : String) : ℚ :=
  (t.rows.map (fun r => numVal (rowCell t.cols r f))).sum

/-- Coverage Aggregator (`create_coverage_summary` of `src/app.py`): the
five bucket sums, one output row per bucket in fixed order.  Selecting
`df[[...]]` raises a `KeyError` as soon as any listed field is absent. -/
def create_coverage_summary (t : Table) : Except String Table :=
  if coverage_buckets.all (fun b => b.2.all (fun f => t.cols.contains f)) then
    .ok { cols := ["tipo_de_cobertura", "area_total_ha"]
          rows := coverage_buckets.map (fun b =>
            [.vstr b.1, .vnum ((b.2.map (sumField t)).sum)]) }
  else .error "KeyError: coverage field"

/-- Coerces the total-affected-area column to numeric and drops rows whose
coerced value is missing (the `df.dropna(subset=[...])` step shared by
`create_correlation_data` and `render_correlation_chart`). -/
def validTable (t : Table) : Table :=
  let t1 := t.mapCol "rea_total_afectada_ha" toNumeric
  { cols := t1.cols
    rows := t1.rows.filter (fun r =>
      decide (rowCell t1.cols r "rea_total_afectada_ha" ≠ .vmissing)) }

/-- Group keys of `groupby("municipio")`: the distinct string values of the
municipality column, missing keys dropped, in ascending order. -/
def groupKeysMunicipio (vt : Table) : List String :=
  ((vt.rows.filterMap (fun r =>
      match rowCell vt.cols r "municipio" with
      | .vstr s => some s
      | _ => none)).dedup).mergeSort (fun a b => decide (a ≤ b))

/-- Rows of one municipality group. -/
def groupRowsMunicipio (vt : Table) (s : String) : List (List Value) :=
  vt.rows.filter (fun r => decide (rowCell vt.cols r "municipio" = .vstr s))

/-- Cause values of one municipality group, missing cells dropped as by
`Series.mode()`. -/
def groupCauses (vt : Table) (s : String) : List String :=
  (groupRowsMunicipio vt s).filterMap (fun r =>
    match rowCell vt.cols r "causa_del_incendio" with
    | .vstr c => some c
    | _ => none)

/-- Area values of one municipality group (numeric after `validTable`). -/
def groupAreas (vt : Table) (s : String) : List ℚ :=
  (groupRowsMunicipio vt s).map (fun r => numVal (rowCell vt.cols r "rea_total_afectada_ha"))

/-- Semantics of `Series.mode()`: the values of maximal frequency, in
ascending order (pandas returns the modes sorted). -/
def modeList (cs : List String) : List String :=
  let uniq := cs.dedup
  let m := (uniq.map (fun c => cs.count c)).foldr max 0
  (uniq.filter (fun c => cs.count c = m)).mergeSort (fun a b => decide (a ≤ b))

/-- Semantics of `x.mode().iloc[0] if len(x.mode()) > 0 else "No especificada"`. -/
def modeFirstD (cs : List String) : String :=
  (modeList cs).headD "No especificada"

/-- Column names of the municipal aggregate after the rename step. -/
def agg_columns : List String :=
  ["Municipio", "Total_Hectareas", "Promedio_Hectareas", "Numero_Incendios", "Causa_Mas_Frecuente"]

/-- Incident count of a municipal-aggregate row. -/
def countOfRow (r : List Value) : ℚ :=
  numVal (rowCell agg_columns r "Numero_Incendios")

/-- Total affected area of a municipal-aggregate row. -/
def sumOfRow (r : List Value) : ℚ :=
  numVal (rowCell agg_columns r "Total_Hectareas")

/-- Builds the aggregate row of one municipality: sum, mean and count of
the area column plus the modal cause. -/
def mkMunicipioRow (vt : Table) (s : String) : List Value :=
  let areas := groupAreas vt s
  [.vstr s, .vnum areas.sum, .vnum (areas.sum / (areas.length : ℚ)),
   .vnum (areas.length : ℚ), .vstr (modeFirstD (groupCauses vt s))]

/-- Municipal Aggregator core (the `groupby`/`agg`/`rename`/filter/sort
block duplicated between `create_correlation_data` and
`render_correlation_chart`): one row per municipality, groups with
nonpositive count or total dropped, sorted by incident count descending. -/
def aggregateByMunicipio (vt : Table) : Table :=
  { cols := agg_columns
    rows := (((groupKeysMunicipio vt).map (mkMunicipioRow vt)).filter
        (fun r => decide (0 < countOfRow r) && decide (0 < sumOfRow r))).mergeSort
      (fun a b => decide (countOfRow b ≤ countOfRow a)) }

/-- Municipal Aggregator (`create_correlation_data` of `src/app.py`).
Reading the area column raises when it is absent; with no valid area rows
an empty frame is returned before `groupby` runs; otherwise the missing
municipality or cause column raises a `KeyError`. -/
def create_correlation_data (t : Table) : Except String Table :=
  if "rea_total_afectada_ha" ∈ t.cols then
    if (validTable t).rows.isEmpty then .ok { cols := [], rows := [] }
    else if "municipio" ∈ t.cols then
      if "causa_del_incendio" ∈ t.cols then .ok (aggregateByMunicipio (validTable t))
      else .error "KeyError: causa_del_incendio"
    else .error "KeyError: municipio"
  else .error "KeyError: rea_total_afectada_ha"

/-- Mean of a rational list (pandas mean; groups are nonempty when used). -/
def meanQ (xs : List ℚ) : ℚ := xs.sum / (xs.length : ℚ)

/-- Covariance numerator of the Pearson coefficient: the sum of products
of deviations from the means (the `1/(n-1)` factors cancel in `corr`). -/
def covN (xs ys : List ℚ) : ℚ :=
  ((xs.zip ys).map (fun p => (p.1 - meanQ xs) * (p.2 - meanQ ys))).sum

/-- Squared-deviation sum of one variable (variance numerator). -/
def varN (xs : List ℚ) : ℚ :=
  (xs.map (fun x => (x - meanQ xs) ^ 2)).sum

/-- Message of the strong-positive correlation branch. -/
def corr_strong : String := "Correlación positiva fuerte"

/-- Message of the moderate-positive correlation branch. -/
def corr_moderate : String := "Correlación positiva moderada"

/-- Message of the weak correlation branch. -/
def corr_weak : String := "Correlación débil"

/-- Three-tier interpretation of `Series.corr`: the branch on
`correlacion > 0.5` / `> 0.2` of the source, stated by the equivalent
rational inequalities on the covariance and variance numerators (proved
equivalent to the real threshold comparisons in the C7 theorem); a zero
variance product is the `NaN` coefficient, whose comparisons are false. -/
def corrLabel (xs ys : List ℚ) : String :=
  if 0 < varN xs * varN ys ∧ 0 < covN xs ys
      ∧ varN xs * varN ys < 4 * covN xs ys ^ 2 then corr_strong
  else if 0 < varN xs * varN ys ∧ 0 < covN xs ys
      ∧ varN xs * varN ys < 25 * covN xs ys ^ 2 then corr_moderate
  else corr_weak

/-- Incident counts column of the municipal aggregate. -/
def aggCounts (out : Table) : List ℚ := out.rows.map countOfRow

/-- Total-area column of the municipal aggregate. -/
def aggTotals (out : Table) : List ℚ := out.rows.map sumOfRow

/-- Outcome of the correlation chart: the guard message for missing
columns, the no-valid-rows message, the insufficient-data message, or a
computed correlation with its three-tier label. -/
inductive CorrOutput where
  | missingColumns
  | noValidData
  | insufficient
  | computed (label : String)
deriving DecidableEq, Repr

/-- Correlation Metric (`render_correlation_chart` of `src/app.py`): guards
on the municipality and area columns, recomputes the municipal aggregate
inline, reports no-valid-data / insufficient-data messages, and otherwise
labels the Pearson coefficient between incident count and total area. -/
def render_correlation_chart (t : Table) : Except String CorrOutput :=
  if "municipio" ∈ t.cols ∧ "rea_total_afectada_ha" ∈ t.cols then
    if (validTable t).rows.isEmpty then .ok .noValidData
    else if "causa_del_incendio" ∈ t.cols then
      if 1 < (aggregateByMunicipio (validTable t)).rows.length then
        .ok (.computed (corrLabel (aggCounts (aggregateByMunicipio (validTable t)))
          (aggTotals (aggregateByMunicipio (validTable t)))))
      else .ok .insufficient
    else .error "KeyError: causa_del_incendio"
  else .ok .missingColumns

/-- Tabular outputs of the dashboard page that the claims mention: the
filtered table and the coverage summary (built from the unfiltered frame
in the source). -/
structure DashboardOutput where
  filtered : Table
  coverage : Table
deriving DecidableEq, Repr

/-- Dashboard page pipeline (`render_dashboard_page` of `src/app.py`,
restricted to its tabular computations): empty data warns and stops;
otherwise the filters run on the raw frame and the coverage summary is
built from `process_data_types` applied to the whole unfiltered frame. -/
def render_dashboard_page (t : Table) (sel : List String) (d1 d2 : ℚ) :
    Except String DashboardOutput :=
  if t.rows.isEmpty then .error "No se encontraron datos"
  else
    match create_filters t sel d1 d2 with
    | .error e => .error e
    | .ok filtered =>
      match create_coverage_summary (process_data_types t) with
      | .error e => .error e
      | .ok resumen => .ok { filtered := filtered, coverage := resumen }

/-- Modelled from the spec (the comparison side of claim C2): the five
category totals computed only over the rows that pass the region and date
filters, i.e. the Coverage Aggregator applied to the Filter Engine output. -/
def coverage_over_filtered (t : Table) (sel : List String) (d1 d2 : ℚ) :
    Except String Table :=
  match create_filters t sel d1 d2 with
  | .error e => .error e
  | .ok filtered => create_coverage_summary (process_data_types filtered)

/-- Removes leading space characters. -/
def dropLeadingSpaces : List Char → List Char
  | [] => []
  | c :: rest => if c = ' ' then dropLeadingSpaces rest else c :: rest

/-- Removes leading and trailing space characters, like `str.strip()`. -/
def stripSpaces (cs : List Char) : List Char :=
  (dropLeadingSpaces ((dropLeadingSpaces cs.reverse).reverse))

/-- Normalized join key of the Geo-Join: upper-case then strip, the
`str.upper().str.strip()` normalisation applied to both sides of the merge. -/
def normName (s : String) : String :=
  String.mk (stripSpaces (s.toList.map Char.toUpper))

/-- String values of the municipality column (missing cells dropped, as by
`value_counts`). -/
def municipio_values (t : Table) : List String :=
  t.rows.filterMap (fun r =>
    match rowCell t.cols r "municipio" with
    | .vstr s => some s
    | _ => none)

/-- Semantics of `value_counts` on the municipality column: distinct
values with their frequencies, ordered by descending frequency. -/
def municipio_counts (t : Table) : List (String × Nat) :=
  ((municipio_values t).dedup.map (fun s => (s, (municipio_values t).count s))).mergeSort
    (fun a b => decide (b.2 ≤ a.2))

/-- One row of the static coordinate lookup file
(`coordenadas_municipios.csv`), an external read-only input. -/
structure CoordRow where
  municipio : String
  lat : ℚ
  lon : ℚ
  departamento : String
deriving DecidableEq, Repr

/-- One row of the Geo-Join output after the duplicate municipality-name
columns of the merge are resolved (left name kept, right name dropped). -/
structure GeoRow where
  municipio : String
  frecuencia_incendios : Nat
  lat : ℚ
  lon : ℚ
  departamento : String
deriving DecidableEq, Repr

/-- Geo-Join core of `render_heatmap`: the inner merge of the
per-municipality incident counts with the coordinate lookup on the
normalized name key. -/
def geo_join (t : Table) (coords : List CoordRow) : List GeoRow :=
  (municipio_counts t).flatMap (fun ic =>
    (coords.filter (fun c => decide (normName c.municipio = normName ic.1))).map (fun c =>
      { municipio := ic.1, frecuencia_incendios := ic.2, lat := c.lat, lon := c.lon,
        departamento := c.departamento }))

/-- Per-column net effect of the Schema Normalizer on one cell, the
sequential composition of the five conversion steps of
`process_data_types` selected by the membership of the column name in the
respective lists. -/
def coerce (c : String) (v : Value) : Value :=
  let v1 := if date_columns.contains c then toDatetime v else v
  let v2 := if time_columns.contains c then toTimeHM v1 else v1
  let v3 := if string_columns.contains c then toStr v2 else v2
  let v4 := if c = "localizado_dentro_de_rea" then toBoolV v3 else v3
  if numeric_columns.contains c then toNumeric v4 else v4

theorem find?_filter_of {α : Type} (l : List α) (p q : α → Bool)
    (h : ∀ a, p a = true → q a = true) :
    (l.filter q).find? p = l.find? p := by
  induction l with
  | nil => rfl
  | cons a l ih =>
    by_cases hq : q a
    · rw [List.filter_cons_of_pos hq]
      cases hp : p a
      · rw [List.find?_cons_of_neg _ (by simp [hp]), List.find?_cons_of_neg _ (by simp [hp]), ih]
      · rw [List.find?_cons_of_pos _ hp, List.find?_cons_of_pos _ hp]
    · rw [List.filter_cons_of_neg (by simpa using hq), ih]
      have hp : p a = false := by
        cases hpa : p a
        · rfl
        · exact absurd (h a hpa) (by simpa using hq)
      rw [List.find?_cons_of_neg _ (by simp [hp])]

theorem zip_zipmap {α β γ : Type} (g : α × β → γ) :
    ∀ (l : List α) (m : List β),
      l.zip ((l.zip m).map g) = (l.zip m).map (fun p => (p.1, g p)) := by
  intro l
  induction l with
  | nil => intro m; rfl
  | cons a l ih =>
    intro m
    cases m with
    | nil => rfl
    | cons b m => simpa using ih m

theorem zip_map_fst {α β γ : Type} (g : α × β → γ) :
    ∀ (M : List (α × β)),
      (M.map Prod.fst).zip (M.map g) = M.map (fun p => (p.1, g p)) := by
  intro M
  induction M with
  | nil => rfl
  | cons p M ih => simpa using ih

theorem zipmap_snd_of_aligned {α β : Type} (l : List α) (m : List β)
    (h : m.length ≤ l.length) :
    (l.zip m).map (fun p => p.2) = m :=
  List.map_snd_zip l m h

theorem mapCol_cols (t : Table) (c : String) (f : Value → Value) :
    (t.mapCol c f).cols = t.cols := by
  unfold Table.mapCol
  split <;> rfl

theorem applyCols_cols (cs : List String) (f : Value → Value) :
    ∀ (t : Table), (applyCols cs f t).cols = t.cols := by
  induction cs with
  | nil => intro t; rfl
  | cons c cs ih =>
    intro t
    show (applyCols cs f (t.mapCol c f)).cols = t.cols
    rw [ih, mapCol_cols]

theorem mapCol_eq_of_aligned (t : Table) (hA : t.Aligned) (c : String) (f : Value → Value) :
    t.mapCol c f =
      { cols := t.cols
        rows := t.rows.map (fun r =>
          (t.cols.zip r).map (fun p => if p.1 = c then f p.2 else p.2)) } := by
  unfold Table.mapCol
  by_cases hc : c ∈ t.cols
  · simp [hc]
  · simp only [hc, if_false]
    cases t with
    | mk cols rows =>
      simp only [Table.mk.injEq, true_and]
      conv_lhs => rw [show rows = rows.map id from (List.map_id rows).symm]
      apply List.map_congr_left
      intro r hr
      have hlen : r.length ≤ cols.length := le_of_eq (hA r hr)
      calc id r = (cols.zip r).map (fun p => p.2) := (zipmap_snd_of_aligned cols r hlen).symm
        _ = (cols.zip r).map (fun p => if p.1 = c then f p.2 else p.2) := by
            apply List.map_congr_left
            intro p hp
            have : p.1 ∈ cols := (List.of_mem_zip hp).1
            have hne : ¬ p.1 = c := fun he => hc (he ▸ this)
            simp [hne]

theorem aligned_zipmapped (cols : List String) (rows : List (List Value))
    (hA : ∀ r ∈ rows, r.length = cols.length) (g : String × Value → Value) :
    Table.Aligned { cols := cols, rows := rows.map (fun r => (cols.zip r).map g) } := by
  intro r hr
  rcases List.mem_map.1 hr with ⟨r0, hr0, rfl⟩
  simp [List.length_zip, hA r0 hr0]

theorem applyCols_eq (f : Value → Value) :
    ∀ (cs : List String), cs.Nodup → ∀ (t : Table), t.Aligned →
      applyCols cs f t =
        { cols := t.cols
          rows := t.rows.map (fun r =>
            (t.cols.zip r).map (fun p => if cs.contains p.1 then f p.2 else p.2)) } := by
  intro cs
  induction cs with
  | nil =>
    intro _ t hA
    cases t with
    | mk cols rows =>
      simp only [applyCols, List.foldl_nil, Table.mk.injEq, true_and]
      conv_lhs => rw [show rows = rows.map id from (List.map_id rows).symm]
      apply List.map_congr_left
      intro r hr
      have hlen : r.length ≤ cols.length := le_of_eq (hA r hr)
      simpa using (zipmap_snd_of_aligned cols r hlen).symm
  | cons c cs ih =>
    intro hnd t hA
    have hcn : c ∉ cs := (List.nodup_cons.1 hnd).1
    have hnd2 : cs.Nodup := (List.nodup_cons.1 hnd).2
    show applyCols cs f (t.mapCol c f) = _
    rw [mapCol_eq_of_aligned t hA c f]
    rw [ih hnd2 _ (aligned_zipmapped t.cols t.rows hA _)]
    simp only [Table.mk.injEq, true_and, List.map_map]
    apply List.map_congr_left
    intro r _
    show (t.cols.zip ((t.cols.zip r).map fun p => if p.1 = c then f p.2 else p.2)).map
        (fun p => if cs.contains p.1 then f p.2 else p.2) = _
    rw [zip_zipmap, List.map_map]
    apply List.map_congr_left
    intro p _
    by_cases hpc : p.1 = c
    · subst hpc
      simp [hcn, Function.comp, List.contains_cons]
    · simp [hpc, Function.comp, List.contains_cons]

theorem filter_fst_map_pair (L : List (String × Value)) (g : String × Value → Value)
    (names : List String) :
    (L.map (fun p => (p.1, g p))).filter (fun p => !(names.contains p.1))
      = (L.filter (fun p => !(names.contains p.1))).map (fun p => (p.1, g p)) := by
  induction L with
  | nil => rfl
  | cons p L ih =>
    simp only [List.map_cons, List.filter_cons]
    cases hq : names.contains p.1
    · simp only [hq, Bool.not_false, if_true, List.map_cons, ih]
    · simp only [hq, Bool.not_true]
      rw [if_neg Bool.false_ne_true, if_neg Bool.false_ne_true, ih]

theorem map_fst_filter_names (L : List (String × Value)) (names : List String) :
    (L.filter (fun p => !(names.contains p.1))).map Prod.fst
      = (L.map Prod.fst).filter (fun c => !(names.contains c)) := by
  induction L with
  | nil => rfl
  | cons p L ih =>
    simp only [List.map_cons, List.filter_cons]
    cases hq : names.contains p.1
    · simp only [hq, Bool.not_false, if_true, List.map_cons, ih]
    · simp only [hq, Bool.not_true]
      rw [if_neg Bool.false_ne_true, if_neg Bool.false_ne_true, ih]

theorem zrow_compose (cols : List String) (r : List Value) (g h : String × Value → Value) :
    (cols.zip ((cols.zip r).map g)).map h = (cols.zip r).map (fun p => h (p.1, g p)) := by
  rw [zip_zipmap, List.map_map]
  rfl

theorem toDatetime_idem : ∀ v, toDatetime (toDatetime v) = toDatetime v := by
  intro v
  match v with
  | .vstr s => cases h : parseDateISO s <;> simp [toDatetime, h]
  | .vdate d => rfl
  | .vtime t => rfl
  | .vnum q => rfl
  | .vbool b => rfl
  | .vmissing => rfl

theorem toStr_idem : ∀ v, toStr (toStr v) = toStr v := by
  intro v
  match v with
  | .vstr s => rfl
  | .vdate d => rfl
  | .vtime t => rfl
  | .vnum q => rfl
  | .vbool b => rfl
  | .vmissing => rfl

theorem toBoolV_idem : ∀ v, toBoolV (toBoolV v) = toBoolV v := by
  intro v
  match v with
  | .vstr s => rfl
  | .vdate d => rfl
  | .vtime t => rfl
  | .vnum q => rfl
  | .vbool b => rfl
  | .vmissing => rfl

theorem toNumeric_idem : ∀ v, toNumeric (toNumeric v) = toNumeric v := by
  intro v
  match v with
  | .vstr s => cases h : parseRat s <;> simp [toNumeric, h]
  | .vdate d => rfl
  | .vtime t => rfl
  | .vnum q => rfl
  | .vbool b => rfl
  | .vmissing => rfl

theorem date_not_later (c : String) (h : c ∈ date_columns) :
    c ∉ string_columns ∧ ¬(c = "localizado_dentro_de_rea") ∧ c ∉ numeric_columns := by
  simp only [date_columns, List.mem_cons, List.not_mem_nil, or_false] at h
  rcases h with rfl | rfl | rfl <;> refine ⟨by decide, by decide, by decide⟩

theorem string_not_later (c : String) (h : c ∈ string_columns) :
    ¬(c = "localizado_dentro_de_rea") ∧ c ∉ numeric_columns := by
  simp only [string_columns, List.mem_cons, List.not_mem_nil, or_false] at h
  rcases h with rfl | rfl | rfl | rfl <;> refine ⟨by decide, by decide⟩

theorem bool_not_numeric : "localizado_dentro_de_rea" ∉ numeric_columns := by decide

theorem coerce_idem (c : String) (ht : c ∉ time_columns) :
    ∀ v, coerce c (coerce c v) = coerce c v := by
  intro v
  unfold coerce
  by_cases hd : c ∈ date_columns
  · obtain ⟨h1, h2, h3⟩ := date_not_later c hd
    simp [hd, ht, h1, h2, h3, toDatetime_idem]
  · by_cases hs : c ∈ string_columns
    · obtain ⟨h2, h3⟩ := string_not_later c hs
      simp [hd, ht, hs, h2, h3, toStr_idem]
    · by_cases hb : c = "localizado_dentro_de_rea"
      · subst hb
        simp [hd, ht, hs, bool_not_numeric, toBoolV_idem]
      · by_cases hn : c ∈ numeric_columns
        · simp [hd, ht, hs, hb, hn, toNumeric_idem]
        · simp [hd, ht, hs, hb, hn]

theorem stage_applyCols (cs : List String) (hnd : cs.Nodup) (f : Value → Value)
    (cols : List String) (rows : List (List Value))
    (hA : ∀ r ∈ rows, r.length = cols.length) (g : String × Value → Value) :
    applyCols cs f { cols := cols, rows := rows.map (fun r => (cols.zip r).map g) }
      = { cols := cols
          rows := rows.map (fun r =>
            (cols.zip r).map (fun p => if cs.contains p.1 then f (g p) else g p)) } := by
  rw [applyCols_eq f cs hnd _ (aligned_zipmapped cols rows hA g)]
  simp only [List.map_map]
  congr 1
  apply List.map_congr_left
  intro r _
  show (cols.zip ((cols.zip r).map g)).map _ = _
  rw [zrow_compose]

theorem stage_mapCol (c : String) (f : Value → Value)
    (cols : List String) (rows : List (List Value))
    (hA : ∀ r ∈ rows, r.length = cols.length) (g : String × Value → Value) :
    Table.mapCol { cols := cols, rows := rows.map (fun r => (cols.zip r).map g) } c f
      = { cols := cols
          rows := rows.map (fun r =>
            (cols.zip r).map (fun p => if p.1 = c then f (g p) else g p)) } := by
  rw [mapCol_eq_of_aligned _ (aligned_zipmapped cols rows hA g) c f]
  simp only [List.map_map]
  congr 1
  apply List.map_congr_left
  intro r _
  show (cols.zip ((cols.zip r).map g)).map _ = _
  rw [zrow_compose]

theorem stage_drop (names : List String)
    (cols : List String) (rows : List (List Value)) (g : String × Value → Value) :
    Table.dropColumns { cols := cols, rows := rows.map (fun r => (cols.zip r).map g) } names
      = { cols := cols.filter (fun c => !(names.contains c))
          rows := rows.map (fun r =>
            ((cols.zip r).filter (fun p => !(names.contains p.1))).map g) } := by
  unfold Table.dropColumns
  simp only [List.map_map]
  congr 1
  apply List.map_congr_left
  intro r _
  show (((cols.zip ((cols.zip r).map g))).filter _).map Prod.snd = _
  rw [zip_zipmap, filter_fst_map_pair, List.map_map]
  rfl

theorem process_data_types_eq (t : Table) (hA : t.Aligned) :
    process_data_types t =
      { cols := t.cols.filter (fun c => !(columnas_a_eliminar.contains c))
        rows := t.rows.map (fun r =>
          ((t.cols.zip r).filter (fun p => !(columnas_a_eliminar.contains p.1))).map
            (fun p => coerce p.1 p.2)) } := by
  show Table.dropColumns
      (applyCols numeric_columns toNumeric
        (Table.mapCol
          (applyCols string_columns toStr
            (applyCols time_columns toTimeHM (applyCols date_columns toDatetime t)))
          "localizado_dentro_de_rea" toBoolV))
      columnas_a_eliminar = _
  rw [applyCols_eq toDatetime date_columns (by decide) t hA,
    stage_applyCols time_columns (by decide) toTimeHM t.cols t.rows hA _,
    stage_applyCols string_columns (by decide) toStr t.cols t.rows hA _,
    stage_mapCol "localizado_dentro_de_rea" toBoolV t.cols t.rows hA _,
    stage_applyCols numeric_columns (by decide) toNumeric t.cols t.rows hA _,
    stage_drop columnas_a_eliminar t.cols t.rows _]
  rfl

theorem process_aligned (t : Table) (hA : t.Aligned) :
    (process_data_types t).Aligned := by
  rw [process_data_types_eq t hA]
  intro r hr
  rcases List.mem_map.1 hr with ⟨r0, hr0, rfl⟩
  show ((((t.cols.zip r0)).filter _).map _).length = _
  rw [List.length_map]
  have h1 : ((t.cols.zip r0).filter (fun p => !(columnas_a_eliminar.contains p.1))).map Prod.fst
      = t.cols.filter (fun c => !(columnas_a_eliminar.contains c)) := by
    rw [map_fst_filter_names]
    congr 1
    exact List.map_fst_zip t.cols r0 (le_of_eq (hA r0 hr0).symm)
  calc (List.filter _ (t.cols.zip r0)).length
      = ((List.filter _ (t.cols.zip r0)).map Prod.fst).length := (List.length_map _ _).symm
    _ = _ := by rw [h1]

/-- C1 (amended): on every well-formed table without the two time-of-day
columns, the Schema Normalizer is idempotent — the date, string, boolean
and numeric coercions and the column drops all reapply without change.
(The unamended claim fails exactly at the time-of-day coercion, see the
counterexample: a parsed time re-coerces to missing.) -/
theorem process_data_types_idempotent (t : Table) (hA : t.Aligned)
    (h1 : "hora_de_inicio" ∉ t.cols) (h2 : "hora_de_finalizaci_n" ∉ t.cols) :
    process_data_types (process_data_types t) = process_data_types t := by
  rw [process_data_types_eq (process_data_types t) (process_aligned t hA)]
  rw [process_data_types_eq t hA]
  simp only [Table.mk.injEq, List.map_map]
  constructor
  · rw [List.filter_filter]
    exact List.filter_congr (fun _ _ => Bool.and_self _)
  · apply List.map_congr_left
    intro r hr
    show ((((t.cols.filter _).zip _)).filter _).map _ = _
    have hfst : ((t.cols.zip r).filter (fun p => !(columnas_a_eliminar.contains p.1))).map Prod.fst
        = t.cols.filter (fun c => !(columnas_a_eliminar.contains c)) := by
      rw [map_fst_filter_names]
      congr 1
      exact List.map_fst_zip t.cols r (le_of_eq (hA r hr).symm)
    rw [← hfst, zip_map_fst, filter_fst_map_pair, List.filter_filter, List.map_map]
    rw [List.filter_congr (fun (p : String × Value) _ => Bool.and_self _)]
    apply List.map_congr_left
    intro p hp
    have hpc : p.1 ∈ t.cols := (List.of_mem_zip (List.mem_of_mem_filter hp)).1
    have hpt : p.1 ∉ time_columns := by
      intro hmem
      simp only [time_columns, List.mem_cons, List.not_mem_nil, or_false] at hmem
      rcases hmem with he | he
      · exact h1 (he ▸ hpc)
      · exact h2 (he ▸ hpc)
    show coerce p.1 (coerce p.1 p.2) = coerce p.1 p.2
    exact coerce_idem p.1 hpt p.2

/-- Concrete table refuting claim C1 as stated: one time-of-day cell
`"10:30"`.  The first normalisation parses it to a time value; the second
coerces the parsed time to missing, so the output differs. -/
def c1Table : Table := { cols := ["hora_de_inicio"], rows := [[.vstr "10:30"]] }

/-- C1 counterexample: the Schema Normalizer is not idempotent on a table
holding a parseable `HH:MM` time-of-day value. -/
theorem process_data_types_not_idempotent :
    process_data_types (process_data_types c1Table) ≠ process_data_types c1Table := by
  with_unfolding_all decide

/-- Concrete well-formed table without time columns for the C1 witness. -/
def c1Witness : Table :=
  { cols := ["municipio", "rea_total_afectada_ha", "fecha_del_reporte"]
    rows := [[.vstr "Sogamoso", .vstr "3.5", .vstr "2020-01-15"],
             [.vstr "Tunja", .vstr "x", .vmissing]] }

theorem process_data_types_idempotent_witness :
    (Table.Aligned c1Witness ∧ "hora_de_inicio" ∉ c1Witness.cols
        ∧ "hora_de_finalizaci_n" ∉ c1Witness.cols)
      ∧ process_data_types (process_data_types c1Witness) = process_data_types c1Witness :=
  ⟨⟨by decide, by decide, by decide⟩,
    process_data_types_idempotent c1Witness (by decide) (by decide) (by decide)⟩

theorem find?_pairmap (L : List (String × Value)) (g : String × Value → Value) (c : String) :
    (L.map (fun p => (p.1, g p))).find? (fun p => p.1 = c)
      = (L.find? (fun p => p.1 = c)).map (fun p => (p.1, g p)) := by
  induction L with
  | nil => rfl
  | cons p L ih =>
    simp only [List.map_cons]
    by_cases hc : p.1 = c
    · rw [List.find?_cons_of_pos _ (by simpa using hc), List.find?_cons_of_pos _ (by simpa using hc)]
      rfl
    · rw [List.find?_cons_of_neg _ (by simpa using hc), List.find?_cons_of_neg _ (by simpa using hc), ih]

theorem find?_filter_names (L : List (String × Value)) (names : List String) (c : String)
    (hc : names.contains c = false) :
    (L.filter (fun p => !(names.contains p.1))).find? (fun p => p.1 = c)
      = L.find? (fun p => p.1 = c) := by
  apply find?_filter_of
  intro p hp
  have hpe : p.1 = c := by simpa using hp
  rw [hpe, hc]
  rfl

theorem find?_zip_isSome (cols : List String) (r : List Value) (c : String)
    (hc : c ∈ cols) (hlen : cols.length ≤ r.length) :
    ((cols.zip r).find? (fun p => p.1 = c)).isSome = true := by
  rw [List.find?_isSome]
  have hmem : c ∈ (cols.zip r).map Prod.fst := by
    rw [List.map_fst_zip _ _ hlen]
    exact hc
  rcases List.mem_map.1 hmem with ⟨p, hp, hpe⟩
  exact ⟨p, hp, by simpa using hpe⟩

theorem cell_process (t : Table) (hA : t.Aligned) (k : Nat) (hk : k < t.rows.length)
    (c : String) (hc : c ∈ t.cols) (hkeep : columnas_a_eliminar.contains c = false) :
    (process_data_types t).cell k c = coerce c (t.cell k c) := by
  rw [process_data_types_eq t hA]
  unfold Table.cell rowCell
  have hk2 : k < (t.rows.map (fun r =>
      ((t.cols.zip r).filter (fun p => !(columnas_a_eliminar.contains p.1))).map
        (fun p => coerce p.1 p.2))).length := by simpa using hk
  show ((((t.cols.filter _).zip (List.getD _ k [])).find? _).map Prod.snd).getD _ = _
  rw [List.getD_eq_getElem _ _ hk2, List.getElem_map, ← List.getD_eq_getElem t.rows [] hk]
  set r := t.rows.getD k [] with hrdef
  have hrmem : r ∈ t.rows := by
    rw [hrdef, List.getD_eq_getElem _ _ hk]
    exact List.getElem_mem hk
  have hlen : t.cols.length ≤ r.length := le_of_eq (hA r hrmem).symm
  have hfst : ((t.cols.zip r).filter (fun p => !(columnas_a_eliminar.contains p.1))).map Prod.fst
      = t.cols.filter (fun x => !(columnas_a_eliminar.contains x)) := by
    rw [map_fst_filter_names]
    congr 1
    exact List.map_fst_zip t.cols r hlen
  rw [← hfst, zip_map_fst, find?_pairmap, find?_filter_names _ _ _ hkeep, Option.map_map]
  cases hX : (t.cols.zip r).find? (fun p => p.1 = c) with
  | none =>
    have := find?_zip_isSome t.cols r c hc hlen
    rw [hX] at this
    exact absurd this (by simp)
  | some p =>
    have hpe : p.1 = c := by simpa using List.find?_some hX
    simp [Function.comp, hpe]

/-- C10: in the Schema Normalizer, the boolean coercion of the
protected-area flag column applies Python truthiness and parses no
boolean-like text: a missing cell and every nonempty string cell —
including `"false"`, `"NO"`, `"0"` — coerce to `True`; only the empty
string coerces to `False`. -/
theorem boolean_flag_truthiness (t : Table) (hA : t.Aligned) (k : Nat)
    (hk : k < t.rows.length) (hc : "localizado_dentro_de_rea" ∈ t.cols) :
    (t.cell k "localizado_dentro_de_rea" = .vmissing →
        (process_data_types t).cell k "localizado_dentro_de_rea" = .vbool true)
      ∧ (∀ s : String, t.cell k "localizado_dentro_de_rea" = .vstr s → s ≠ "" →
        (process_data_types t).cell k "localizado_dentro_de_rea" = .vbool true)
      ∧ (t.cell k "localizado_dentro_de_rea" = .vstr "" →
        (process_data_types t).cell k "localizado_dentro_de_rea" = .vbool false) := by
  have hcell := cell_process t hA k hk "localizado_dentro_de_rea" hc (by decide)
  have hco : ∀ v, coerce "localizado_dentro_de_rea" v = toBoolV v := by
    intro v
    simp only [coerce,
      show numeric_columns.contains "localizado_dentro_de_rea" = false from by decide,
      show string_columns.contains "localizado_dentro_de_rea" = false from by decide,
      show time_columns.contains "localizado_dentro_de_rea" = false from by decide,
      show date_columns.contains "localizado_dentro_de_rea" = false from by decide,
      Bool.false_eq_true, if_false, if_true]
  refine ⟨?_, ?_, ?_⟩
  · intro hm
    rw [hcell, hm, hco]
    rfl
  · intro s hs hne
    rw [hcell, hs, hco]
    simp [toBoolV, hne]
  · intro hs
    rw [hcell, hs, hco]
    rfl

/-- Concrete table exercising the boolean coercion on `"false"`, `"NO"`,
`"0"`, the empty string and a missing cell. -/
def c10Witness : Table :=
  { cols := ["localizado_dentro_de_rea"]
    rows := [[.vstr "false"], [.vstr "NO"], [.vstr "0"], [.vstr ""], [.vmissing]] }

theorem boolean_flag_truthiness_witness :
    (Table.Aligned c10Witness ∧ "localizado_dentro_de_rea" ∈ c10Witness.cols
        ∧ c10Witness.cell 0 "localizado_dentro_de_rea" = .vstr "false")
      ∧ (process_data_types c10Witness).cell 0 "localizado_dentro_de_rea" = .vbool true
      ∧ (process_data_types c10Witness).cell 1 "localizado_dentro_de_rea" = .vbool true
      ∧ (process_data_types c10Witness).cell 2 "localizado_dentro_de_rea" = .vbool true
      ∧ (process_data_types c10Witness).cell 3 "localizado_dentro_de_rea" = .vbool false
      ∧ (process_data_types c10Witness).cell 4 "localizado_dentro_de_rea" = .vbool true :=
  ⟨⟨by decide, by decide, by decide⟩,
    (boolean_flag_truthiness c10Witness (by decide) 0 (by decide) (by decide)).2.1 "false"
      (by decide) (by decide),
    (boolean_flag_truthiness c10Witness (by decide) 1 (by decide) (by decide)).2.1 "NO"
      (by decide) (by decide),
    (boolean_flag_truthiness c10Witness (by decide) 2 (by decide) (by decide)).2.1 "0"
      (by decide) (by decide),
    (boolean_flag_truthiness c10Witness (by decide) 3 (by decide) (by decide)).2.2
      (by decide),
    (boolean_flag_truthiness c10Witness (by decide) 4 (by decide) (by decide)).1
      (by decide)⟩

theorem isinStr_iff (v : Value) (sel : List String) :
    isinStr v sel = true ↔ ∃ s, v = .vstr s ∧ s ∈ sel := by
  cases v <;> simp [isinStr]

theorem dateInRange_iff (v : Value) (d1 d2 : ℚ) :
    dateInRange v d1 d2 = true ↔ ∃ d, v = .vdate d ∧ d1 ≤ d ∧ d ≤ d2 := by
  cases v <;> simp [dateInRange]

/-- Specification of the Filter Engine output: the filter succeeds, keeps
the header, and returns exactly the rows whose region cell is a selected
string and — only when the report-timestamp column exists — whose
timestamp lies within the inclusive range; an empty selection yields an
empty result. -/
def FilterSpec (t : Table) (sel : List String) (d1 d2 : ℚ) : Prop :=
  ∃ out : Table, create_filters t sel d1 d2 = .ok out ∧ out.cols = t.cols
    ∧ (∀ r, r ∈ out.rows ↔ r ∈ t.rows
        ∧ (∃ s, rowCell t.cols r "departamento" = .vstr s ∧ s ∈ sel)
        ∧ ("fecha_reporte" ∈ t.cols →
            ∃ d : ℚ, rowCell t.cols r "fecha_reporte" = .vdate d ∧ d1 ≤ d ∧ d ≤ d2))
    ∧ (sel = [] → out.rows = [])

/-- C6: for every table with a region column, every selection and every
two-endpoint inclusive date range, the Filter Engine returns exactly the
rows whose region belongs to the selected set and whose report timestamp
lies within the range; when the report-timestamp column is absent only the
region filter applies, and an empty selection returns no rows. -/
theorem create_filters_spec (t : Table) (sel : List String) (d1 d2 : ℚ)
    (hdep : "departamento" ∈ t.cols) : FilterSpec t sel d1 d2 := by
  unfold FilterSpec create_filters
  rw [if_pos hdep]
  by_cases hf : "fecha_reporte" ∈ t.cols
  · rw [if_pos hf]
    refine ⟨_, rfl, rfl, ?_, ?_⟩
    · intro r
      simp [List.mem_filter, isinStr_iff, dateInRange_iff, hf]
    · intro hsel
      subst hsel
      apply List.filter_eq_nil_iff.2
      intro r _
      simp [isinStr_iff]
  · rw [if_neg hf]
    refine ⟨_, rfl, rfl, ?_, ?_⟩
    · intro r
      simp [List.mem_filter, isinStr_iff, hf]
    · intro hsel
      subst hsel
      apply List.filter_eq_nil_iff.2
      intro r _
      simp [isinStr_iff]

/-- Concrete table for the C6 witness. -/
def c6Witness : Table :=
  { cols := ["departamento", "fecha_reporte"]
    rows := [[.vstr "BOYACA", .vdate 5], [.vstr "CASANARE", .vdate 20]] }

theorem create_filters_spec_witness :
    ("departamento" ∈ c6Witness.cols) ∧ FilterSpec c6Witness ["BOYACA"] 0 10 :=
  ⟨by decide, create_filters_spec c6Witness ["BOYACA"] 0 10 (by decide)⟩

/-- C8: every exception of the fetch/parse effect is absorbed by
`load_data`: the error case returns the empty table together with the
user-visible error message flag, and only the error case raises that flag
— the failure never propagates to the caller. -/
theorem load_data_failure_contained :
    (∀ msg : String, load_data (Except.error msg) = ({ cols := [], rows := [] }, true))
      ∧ (∀ df : Table, (load_data (Except.ok df)).2 = false) := by
  constructor
  · intro msg
    rfl
  · intro df
    rfl

/-- Concrete table for the C2 counterexample: all coverage fields present,
two rows in different regions, one forest-field value per row. -/
def c2Table : Table :=
  { cols := "departamento" :: (bosques_fields ++ cultivos_fields ++ pastos_fields
      ++ zonas_urbanas_fields ++ otras_coberturas_fields)
    rows := [.vstr "A" :: .vstr "10" :: List.replicate 54 .vmissing,
             .vstr "B" :: .vstr "5" :: List.replicate 54 .vmissing] }

/-- C2 counterexample: with region `"A"` selected, the dashboard pipeline
sums the forest bucket over both rows (15 ha) while the claimed
filter-then-aggregate pipeline sums only the selected row (10 ha). -/
theorem dashboard_coverage_not_filtered :
    ((render_dashboard_page c2Table ["A"] 0 0).map (fun o => o.coverage))
      ≠ coverage_over_filtered c2Table ["A"] 0 0 := by
  with_unfolding_all decide

/-- C2 (amended): the dashboard coverage summary is computed from the
whole normalized frame — it is invariant under the filter selection and
equals `create_coverage_summary (process_data_types t)` — because
`render_dashboard_page` passes the unfiltered frame to the Coverage
Aggregator. -/
theorem dashboard_coverage_ignores_filters (t : Table) (sel sel2 : List String)
    (d1 d2 d3 d4 : ℚ) (hne : t.rows.isEmpty = false) (hdep : "departamento" ∈ t.cols)
    (hcov : coverage_buckets.all
      (fun b => b.2.all (fun f => (process_data_types t).cols.contains f)) = true) :
    ∃ out out2 : DashboardOutput,
      render_dashboard_page t sel d1 d2 = .ok out
        ∧ render_dashboard_page t sel2 d3 d4 = .ok out2
        ∧ out2.coverage = out.coverage
        ∧ create_coverage_summary (process_data_types t) = .ok out.coverage := by
  obtain ⟨f, hf, -, -, -⟩ := create_filters_spec t sel d1 d2 hdep
  obtain ⟨f2, hf2, -, -, -⟩ := create_filters_spec t sel2 d3 d4 hdep
  have hc : create_coverage_summary (process_data_types t)
      = .ok { cols := ["tipo_de_cobertura", "area_total_ha"]
              rows := coverage_buckets.map (fun b =>
                [.vstr b.1, .vnum ((b.2.map (sumField (process_data_types t))).sum)]) } := by
    unfold create_coverage_summary
    rw [if_pos hcov]
  refine ⟨{ filtered := f
            coverage := { cols := ["tipo_de_cobertura", "area_total_ha"]
                          rows := coverage_buckets.map (fun b =>
                            [.vstr b.1, .vnum ((b.2.map (sumField (process_data_types t))).sum)]) } },
    { filtered := f2
      coverage := { cols := ["tipo_de_cobertura", "area_total_ha"]
                    rows := coverage_buckets.map (fun b =>
                      [.vstr b.1, .vnum ((b.2.map (sumField (process_data_types t))).sum)]) } },
    ?_, ?_, rfl, hc⟩
  · simp only [render_dashboard_page, hne, Bool.false_eq_true, if_false, hf, hc]
  · simp only [render_dashboard_page, hne, Bool.false_eq_true, if_false, hf2, hc]

theorem dashboard_coverage_ignores_filters_witness :
    (c2Table.rows.isEmpty = false ∧ "departamento" ∈ c2Table.cols
        ∧ coverage_buckets.all
          (fun b => b.2.all (fun f => (process_data_types c2Table).cols.contains f)) = true)
      ∧ ∃ out out2 : DashboardOutput,
        render_dashboard_page c2Table ["A"] 0 0 = .ok out
          ∧ render_dashboard_page c2Table ["A", "B"] 0 100 = .ok out2
          ∧ out2.coverage = out.coverage
          ∧ create_coverage_summary (process_data_types c2Table) = .ok out.coverage :=
  ⟨⟨by decide, by decide, by with_unfolding_all decide⟩,
    dashboard_coverage_ignores_filters c2Table ["A"] ["A", "B"] 0 0 0 100 (by decide)
      (by decide) (by with_unfolding_all decide)⟩

/-- Concrete table for the C3 counterexample: no region column, no
coverage fields, no area column. -/
def c3Table : Table := { cols := ["municipio"], rows := [[.vstr "X"]] }

/-- C3 counterexample: the Filter Engine does not check presence — on a
table without the region column it raises (`KeyError`) instead of
degrading. -/
theorem create_filters_raises_on_missing_region :
    create_filters c3Table ["A"] 0 0 = .error "KeyError: departamento" := by
  with_unfolding_all decide

/-- C3 (amended): presence checking is uneven.  The Filter Engine raises a
`KeyError` whenever the region column is absent and the Coverage
Aggregator raises whenever any bucket field is absent, while the
correlation chart checks its columns first and degrades to an
informational message. -/
theorem missing_column_handling (t : Table) (sel : List String) (d1 d2 : ℚ) :
    ("departamento" ∉ t.cols →
        create_filters t sel d1 d2 = .error "KeyError: departamento")
      ∧ (¬ (coverage_buckets.all (fun b => b.2.all (fun f => t.cols.contains f)) = true) →
        create_coverage_summary t = .error "KeyError: coverage field")
      ∧ (("municipio" ∉ t.cols ∨ "rea_total_afectada_ha" ∉ t.cols) →
        render_correlation_chart t = .ok .missingColumns) := by
  refine ⟨?_, ?_, ?_⟩
  · intro hdep
    unfold create_filters
    rw [if_neg hdep]
  · intro hcov
    unfold create_coverage_summary
    rw [if_neg hcov]
  · intro hmiss
    unfold render_correlation_chart
    rw [if_neg (by tauto)]

theorem missing_column_handling_witness :
    ("departamento" ∉ c3Table.cols
        ∧ ¬ (coverage_buckets.all (fun b => b.2.all (fun f => c3Table.cols.contains f)) = true)
        ∧ "rea_total_afectada_ha" ∉ c3Table.cols)
      ∧ create_filters c3Table ["A"] 0 0 = .error "KeyError: departamento"
      ∧ create_coverage_summary c3Table = .error "KeyError: coverage field"
      ∧ render_correlation_chart c3Table = .ok .missingColumns :=
  ⟨⟨by decide, by decide, by decide⟩,
    (missing_column_handling c3Table ["A"] 0 0).1 (by decide),
    (missing_column_handling c3Table ["A"] 0 0).2.1 (by decide),
    (missing_column_handling c3Table ["A"] 0 0).2.2 (Or.inr (by decide))⟩

theorem create_correlation_data_ok (t : Table) (out : Table)
    (h : create_correlation_data t = .ok out) :
    out = { cols := [], rows := [] } ∨ out = aggregateByMunicipio (validTable t) := by
  unfold create_correlation_data at h
  by_cases h1 : "rea_total_afectada_ha" ∈ t.cols
  · rw [if_pos h1] at h
    by_cases h2 : (validTable t).rows.isEmpty = true
    · rw [if_pos h2] at h
      left
      simpa using h.symm
    · rw [if_neg h2] at h
      by_cases h3 : "municipio" ∈ t.cols
      · rw [if_pos h3] at h
        by_cases h4 : "causa_del_incendio" ∈ t.cols
        · rw [if_pos h4] at h
          right
          simpa using h.symm
        · rw [if_neg h4] at h
          simp at h
      · rw [if_neg h3] at h
        simp at h
  · rw [if_neg h1] at h
    simp at h

theorem mem_agg_rows (vt : Table) (r : List Value) :
    r ∈ (aggregateByMunicipio vt).rows ↔
      (∃ s ∈ groupKeysMunicipio vt, mkMunicipioRow vt s = r)
        ∧ 0 < countOfRow r ∧ 0 < sumOfRow r := by
  unfold aggregateByMunicipio
  rw [List.mem_mergeSort, List.mem_filter, List.mem_map]
  simp [and_assoc]

theorem agg_rows_sorted (vt : Table) :
    List.Sorted (fun a b => countOfRow b ≤ countOfRow a) (aggregateByMunicipio vt).rows := by
  unfold aggregateByMunicipio
  have hp := @List.sorted_mergeSort (List Value)
    (fun a b => decide (countOfRow b ≤ countOfRow a))
    (fun a b c hab hbc => by
      have h1 : countOfRow b ≤ countOfRow a := of_decide_eq_true hab
      have h2 : countOfRow c ≤ countOfRow b := of_decide_eq_true hbc
      exact decide_eq_true (le_trans h2 h1))
    (fun a b => by
      rcases le_total (countOfRow b) (countOfRow a) with hle | hle <;> simp [hle])
    (((groupKeysMunicipio vt).map (mkMunicipioRow vt)).filter
      (fun r => decide (0 < countOfRow r) && decide (0 < sumOfRow r)))
  exact hp.imp (fun hab => of_decide_eq_true hab)

/-- C4: whenever the Municipal Aggregator returns a table, every output
row has incident count strictly positive and total affected area strictly
positive, and the rows are sorted in non-increasing order of incident
count. -/
theorem municipal_aggregate_invariants (t : Table) (out : Table)
    (h : create_correlation_data t = .ok out) :
    (∀ r ∈ out.rows, 0 < countOfRow r ∧ 0 < sumOfRow r)
      ∧ List.Sorted (fun a b => countOfRow b ≤ countOfRow a) out.rows := by
  rcases create_correlation_data_ok t out h with rfl | rfl
  · exact ⟨fun r hr => absurd hr (List.not_mem_nil r), List.sorted_nil⟩
  · refine ⟨fun r hr => ((mem_agg_rows _ r).1 hr).2, agg_rows_sorted _⟩

/-- Concrete input of the spec aggregation scenario (three raw rows, two
municipalities) for the C4 witness. -/
def c4Witness : Table :=
  { cols := ["municipio", "rea_total_afectada_ha", "causa_del_incendio"]
    rows := [[.vstr "Sogamoso", .vstr "10", .vstr "Quema"],
             [.vstr "Samacá", .vstr "2", .vstr "Accidental"],
             [.vstr "Sogamoso", .vstr "5", .vstr "Quema"]] }

/-- Expected Municipal Aggregator output on `c4Witness`. -/
def c4WitnessOut : Table :=
  { cols := ["Municipio", "Total_Hectareas", "Promedio_Hectareas", "Numero_Incendios",
             "Causa_Mas_Frecuente"]
    rows := [[.vstr "Sogamoso", .vnum 15, .vnum ((15 : ℚ)/2), .vnum 2, .vstr "Quema"],
             [.vstr "Samacá", .vnum 2, .vnum 2, .vnum 1, .vstr "Accidental"]] }

theorem municipal_aggregate_invariants_witness :
    create_correlation_data c4Witness = .ok c4WitnessOut
      ∧ ((∀ r ∈ c4WitnessOut.rows, 0 < countOfRow r ∧ 0 < sumOfRow r)
        ∧ List.Sorted (fun a b => countOfRow b ≤ countOfRow a) c4WitnessOut.rows) :=
  ⟨by with_unfolding_all decide,
    municipal_aggregate_invariants c4Witness c4WitnessOut (by with_unfolding_all decide)⟩

theorem foldr_max_mem : ∀ (l : List Nat), l ≠ [] → l.foldr max 0 ∈ l := by
  intro l
  induction l with
  | nil => intro h; exact absurd rfl h
  | cons a l ih =>
    intro _
    cases l with
    | nil => simp
    | cons b l =>
      rcases le_total ((b :: l).foldr max 0) a with hle | hle
      · simp only [List.foldr_cons] at *
        rw [max_eq_left hle]
        exact List.mem_cons_self a _
      · simp only [List.foldr_cons] at *
        rw [max_eq_right hle]
        exact List.mem_cons_of_mem a (ih (by simp))

theorem le_foldr_max : ∀ (l : List Nat) (b : Nat), b ∈ l → b ≤ l.foldr max 0 := by
  intro l
  induction l with
  | nil => intro b hb; exact absurd hb (List.not_mem_nil b)
  | cons a l ih =>
    intro b hb
    rcases List.mem_cons.1 hb with rfl | hb
    · exact le_max_left _ _
    · exact le_trans (ih b hb) (le_max_right _ _)

theorem sorted_head_le (x : String) (rest : List String)
    (hs : List.Pairwise (fun a b => decide (a ≤ b) = true) (x :: rest)) :
    ∀ c ∈ x :: rest, x ≤ c := by
  intro c hc
  rcases List.mem_cons.1 hc with rfl | hc
  · exact le_refl c
  · exact of_decide_eq_true ((List.pairwise_cons.1 hs).1 c hc)

theorem string_mergeSort_sorted (l : List String) :
    List.Pairwise (fun a b => decide (a ≤ b) = true)
      (l.mergeSort (fun a b => decide (a ≤ b))) :=
  @List.sorted_mergeSort String (fun a b => decide (a ≤ b))
    (fun a b c hab hbc =>
      decide_eq_true (le_trans (of_decide_eq_true hab) (of_decide_eq_true hbc)))
    (fun a b => by rcases le_total a b with h | h <;> simp [h]) l

theorem modeFirstD_default (cs : List String) (h : cs = []) :
    modeFirstD cs = "No especificada" := by
  subst h
  simp [modeFirstD, modeList, List.mergeSort_nil]

theorem modeFirstD_spec (cs : List String) (hne : cs ≠ []) :
    modeFirstD cs ∈ cs
      ∧ (∀ c ∈ cs, cs.count c ≤ cs.count (modeFirstD cs))
      ∧ (∀ c ∈ cs, cs.count c = cs.count (modeFirstD cs) → modeFirstD cs ≤ c) := by
  have hud : cs.dedup ≠ [] := by
    intro h
    exact hne ((List.dedup_eq_nil _).1 h)
  set m := ((cs.dedup.map (fun c => cs.count c)).foldr max 0) with hm
  have hmmem : m ∈ cs.dedup.map (fun c => cs.count c) :=
    foldr_max_mem _ (by simpa using hud)
  rcases List.mem_map.1 hmmem with ⟨u, hu, hum⟩
  have hufil : u ∈ cs.dedup.filter (fun c => cs.count c = m) := by
    rw [List.mem_filter]
    exact ⟨hu, by simpa using hum⟩
  have hfne : cs.dedup.filter (fun c => cs.count c = m) ≠ [] := by
    intro h
    rw [h] at hufil
    exact List.not_mem_nil u hufil
  have hms : modeList cs
      = (cs.dedup.filter (fun c => cs.count c = m)).mergeSort (fun a b => decide (a ≤ b)) := by
    rfl
  have hmem_sort : ∀ c, c ∈ modeList cs ↔ c ∈ cs.dedup.filter (fun c => cs.count c = m) := by
    intro c
    rw [hms, List.mem_mergeSort]
  have hList : modeList cs ≠ [] := by
    intro h
    rcases List.exists_mem_of_ne_nil _ hfne with ⟨c, hc⟩
    rw [← hmem_sort c] at hc
    rw [h] at hc
    exact List.not_mem_nil c hc
  obtain ⟨x, rest, hxr⟩ := List.exists_cons_of_ne_nil hList
  have hmode : modeFirstD cs = x := by
    rw [modeFirstD, hxr]
    rfl
  have hxmem : x ∈ modeList cs := by
    rw [hxr]
    exact List.mem_cons_self x rest
  have hxfil := (hmem_sort x).1 hxmem
  rw [List.mem_filter] at hxfil
  have hxcount : cs.count x = m := by simpa using hxfil.2
  refine ⟨?_, ?_, ?_⟩
  · rw [hmode]
    exact List.mem_dedup.1 hxfil.1
  · intro c hc
    rw [hmode, hxcount, hm]
    exact le_foldr_max _ _ (List.mem_map.2 ⟨c, List.mem_dedup.2 hc, rfl⟩)
  · intro c hc hcount
    rw [hmode] at hcount ⊢
    have hcc : cs.count c = m := by rw [hcount, hxcount]
    have hcfil : c ∈ modeList cs := by
      rw [hmem_sort, List.mem_filter]
      exact ⟨List.mem_dedup.2 hc, by simpa using hcc⟩
    have hsorted := string_mergeSort_sorted (cs.dedup.filter (fun c => cs.count c = m))
    rw [← hms, hxr] at hsorted
    exact sorted_head_le x rest hsorted c (hxr ▸ hcfil)

/-- Specification of one municipal-aggregate row for the modal-cause claim:
the row belongs to some municipality `s`, its reported cause is the first
mode of the causes of the group of `s`, the literal `"No especificada"`
stands in when the group has no cause values, and otherwise the reported
cause attains the maximal frequency and is the least such value (pandas
returns the modes sorted, so `.iloc[0]` takes the first of the sorted
modes). -/
def ModeCauseSpec (vt : Table) (r : List Value) : Prop :=
  ∃ s : String,
    rowCell agg_columns r "Municipio" = .vstr s
      ∧ rowCell agg_columns r "Causa_Mas_Frecuente"
          = .vstr (modeFirstD (groupCauses vt s))
      ∧ (groupCauses vt s = [] → modeFirstD (groupCauses vt s) = "No especificada")
      ∧ (groupCauses vt s ≠ [] →
          modeFirstD (groupCauses vt s) ∈ groupCauses vt s
            ∧ (∀ c ∈ groupCauses vt s,
                (groupCauses vt s).count c
                  ≤ (groupCauses vt s).count (modeFirstD (groupCauses vt s)))
            ∧ (∀ c ∈ groupCauses vt s,
                (groupCauses vt s).count c
                    = (groupCauses vt s).count (modeFirstD (groupCauses vt s))
                  → modeFirstD (groupCauses vt s) ≤ c))

/-- C5: every row of the Municipal Aggregator output reports as
most-frequent cause the first (least) mode of the cause values of its
municipality group, falling back to the literal `"No especificada"` when
the group has no mode (no non-missing cause values). -/
theorem municipal_mode_cause (t : Table) (out : Table)
    (h : create_correlation_data t = .ok out) :
    ∀ r ∈ out.rows, ModeCauseSpec (validTable t) r := by
  intro r hr
  rcases create_correlation_data_ok t out h with rfl | rfl
  · exact absurd hr (List.not_mem_nil r)
  · obtain ⟨⟨s, hs, hrow⟩, -, -⟩ := (mem_agg_rows _ r).1 hr
    refine ⟨s, ?_, ?_, modeFirstD_default _, fun hne => modeFirstD_spec _ hne⟩
    · rw [← hrow]
      rfl
    · rw [← hrow]
      rfl

theorem municipal_mode_cause_witness :
    create_correlation_data c4Witness = .ok c4WitnessOut
      ∧ ∀ r ∈ c4WitnessOut.rows, ModeCauseSpec (validTable c4Witness) r :=
  ⟨by with_unfolding_all decide,
    municipal_mode_cause c4Witness c4WitnessOut (by with_unfolding_all decide)⟩

theorem mem_counts_fst (t : Table) (ic : String × Nat) (h : ic ∈ municipio_counts t) :
    ic.1 ∈ municipio_values t := by
  unfold municipio_counts at h
  rw [List.mem_mergeSort] at h
  rcases List.mem_map.1 h with ⟨s, hs, rfl⟩
  exact List.mem_dedup.1 hs

/-- C9: a normalized municipality key appears in the Geo-Join output
exactly when it appears (after upper-casing and trimming) both among the
municipality values of the incident table and in the Coordinate Lookup;
names differing only in case or surrounding whitespace therefore match,
and a municipality present on only one side (or neither) never appears. -/
theorem geo_join_exact_match (t : Table) (coords : List CoordRow) (key : String) :
    (∃ row ∈ geo_join t coords, normName row.municipio = key) ↔
      ((∃ s ∈ municipio_values t, normName s = key)
        ∧ (∃ c ∈ coords, normName c.municipio = key)) := by
  unfold geo_join
  constructor
  · rintro ⟨row, hrow, hkey⟩
    rcases List.mem_flatMap.1 hrow with ⟨ic, hic, hrow2⟩
    rcases List.mem_map.1 hrow2 with ⟨c, hcf, rfl⟩
    rcases List.mem_filter.1 hcf with ⟨hc, heq⟩
    have heq2 : normName c.municipio = normName ic.1 := of_decide_eq_true heq
    exact ⟨⟨ic.1, mem_counts_fst t ic hic, hkey⟩, ⟨c, hc, by rw [heq2]; exact hkey⟩⟩
  · rintro ⟨⟨s, hs, hkey⟩, ⟨c, hc, hck⟩⟩
    refine ⟨{ municipio := s, frecuencia_incendios := (municipio_values t).count s,
              lat := c.lat, lon := c.lon, departamento := c.departamento }, ?_, hkey⟩
    apply List.mem_flatMap.2
    refine ⟨(s, (municipio_values t).count s), ?_, ?_⟩
    · unfold municipio_counts
      rw [List.mem_mergeSort]
      exact List.mem_map.2 ⟨s, List.mem_dedup.2 hs, rfl⟩
    · apply List.mem_map.2
      refine ⟨c, ?_, rfl⟩
      rw [List.mem_filter]
      exact ⟨hc, decide_eq_true (by rw [hck, hkey])⟩

example :
    geo_join { cols := ["municipio"], rows := [[.vstr " sogamoso "]] }
        [{ municipio := "SOGAMOSO", lat := 5, lon := -72, departamento := "BOYACA" }]
      = [{ municipio := " sogamoso ", frecuencia_incendios := 1, lat := 5, lon := -72,
           departamento := "BOYACA" }] := by
  with_unfolding_all decide

theorem varN_nonneg (xs : List ℚ) : 0 ≤ varN xs := by
  apply List.sum_nonneg
  intro x hx
  rcases List.mem_map.1 hx with ⟨a, -, rfl⟩
  exact sq_nonneg _

theorem div_sqrt_threshold (c d : ℝ) (hd : 0 ≤ d) (u : ℝ) (hu : 0 < u) :
    (1 / u < c / Real.sqrt d) ↔ (0 < d ∧ 0 < c ∧ d < u ^ 2 * c ^ 2) := by
  rcases eq_or_lt_of_le hd with heq | hpos
  · rw [← heq, Real.sqrt_zero, div_zero]
    constructor
    · intro h
      exact absurd h (not_lt.2 (le_of_lt (by positivity)))
    · rintro ⟨h0, -, -⟩
      exact absurd h0 (lt_irrefl 0)
  · have hs : 0 < Real.sqrt d := Real.sqrt_pos.2 hpos
    rw [lt_div_iff₀ hs]
    constructor
    · intro h
      have hpos2 : 0 < 1 / u * Real.sqrt d := by positivity
      have hc : 0 < c := lt_trans hpos2 h
      refine ⟨hpos, hc, ?_⟩
      have h2 : Real.sqrt d < u * c := by
        calc Real.sqrt d = u * (1 / u * Real.sqrt d) := by field_simp
          _ < u * c := by exact mul_lt_mul_of_pos_left h hu
      have h3 : Real.sqrt d * Real.sqrt d < (u * c) * (u * c) :=
        mul_self_lt_mul_self (Real.sqrt_nonneg d) h2
      rw [Real.mul_self_sqrt hd] at h3
      nlinarith [h3]
    · rintro ⟨-, hc, hlt⟩
      have h2 : Real.sqrt d < u * c := by
        have h4 : Real.sqrt d < Real.sqrt (u ^ 2 * c ^ 2) := Real.sqrt_lt_sqrt hd hlt
        rwa [show u ^ 2 * c ^ 2 = (u * c) ^ 2 by ring,
          Real.sqrt_sq (by positivity : (0:ℝ) ≤ u * c)] at h4
      calc 1 / u * Real.sqrt d < 1 / u * (u * c) := mul_lt_mul_of_pos_left h2 (by positivity)
        _ = c := by field_simp

theorem corrLabel_pearson (xs ys : List ℚ) :
    (corrLabel xs ys = corr_strong ↔
        (1 / 2 : ℝ) < (covN xs ys : ℝ)
          / Real.sqrt ((varN xs : ℝ) * (varN ys : ℝ)))
      ∧ (corrLabel xs ys = corr_moderate ↔
        ((1 / 5 : ℝ) < (covN xs ys : ℝ)
            / Real.sqrt ((varN xs : ℝ) * (varN ys : ℝ))
          ∧ ¬ ((1 / 2 : ℝ) < (covN xs ys : ℝ)
            / Real.sqrt ((varN xs : ℝ) * (varN ys : ℝ)))))
      ∧ (corrLabel xs ys = corr_weak ↔
        (covN xs ys : ℝ) / Real.sqrt ((varN xs : ℝ) * (varN ys : ℝ)) ≤ (1 / 5 : ℝ)) := by
  have hd : (0 : ℝ) ≤ (varN xs : ℝ) * (varN ys : ℝ) := by
    have h1 := varN_nonneg xs
    have h2 := varN_nonneg ys
    positivity
  have hstrong : ((1 / 2 : ℝ) < (covN xs ys : ℝ)
      / Real.sqrt ((varN xs : ℝ) * (varN ys : ℝ)))
      ↔ (0 < varN xs * varN ys ∧ 0 < covN xs ys
          ∧ varN xs * varN ys < 4 * covN xs ys ^ 2) := by
    rw [div_sqrt_threshold _ _ hd 2 (by norm_num)]
    constructor
    · rintro ⟨h1, h2, h3⟩
      refine ⟨by exact_mod_cast h1, by exact_mod_cast h2, ?_⟩
      have h4 : ((varN xs * varN ys : ℚ) : ℝ) < ((4 * covN xs ys ^ 2 : ℚ) : ℝ) := by
        push_cast
        nlinarith [h3]
      exact_mod_cast h4
    · rintro ⟨h1, h2, h3⟩
      refine ⟨by exact_mod_cast h1, by exact_mod_cast h2, ?_⟩
      have h4 : ((varN xs * varN ys : ℚ) : ℝ) < ((4 * covN xs ys ^ 2 : ℚ) : ℝ) := by
        exact_mod_cast h3
      push_cast at h4
      nlinarith [h4]
  have hmod : ((1 / 5 : ℝ) < (covN xs ys : ℝ)
      / Real.sqrt ((varN xs : ℝ) * (varN ys : ℝ)))
      ↔ (0 < varN xs * varN ys ∧ 0 < covN xs ys
          ∧ varN xs * varN ys < 25 * covN xs ys ^ 2) := by
    rw [div_sqrt_threshold _ _ hd 5 (by norm_num)]
    constructor
    · rintro ⟨h1, h2, h3⟩
      refine ⟨by exact_mod_cast h1, by exact_mod_cast h2, ?_⟩
      have h4 : ((varN xs * varN ys : ℚ) : ℝ) < ((25 * covN xs ys ^ 2 : ℚ) : ℝ) := by
        push_cast
        nlinarith [h3]
      exact_mod_cast h4
    · rintro ⟨h1, h2, h3⟩
      refine ⟨by exact_mod_cast h1, by exact_mod_cast h2, ?_⟩
      have h4 : ((varN xs * varN ys : ℚ) : ℝ) < ((25 * covN xs ys ^ 2 : ℚ) : ℝ) := by
        exact_mod_cast h3
      push_cast at h4
      nlinarith [h4]
  have himp : (0 < varN xs * varN ys ∧ 0 < covN xs ys
      ∧ varN xs * varN ys < 4 * covN xs ys ^ 2)
      → (0 < varN xs * varN ys ∧ 0 < covN xs ys
        ∧ varN xs * varN ys < 25 * covN xs ys ^ 2) := by
    rintro ⟨h1, h2, h3⟩
    refine ⟨h1, h2, ?_⟩
    nlinarith [sq_nonneg (covN xs ys)]
  by_cases hS : (0 < varN xs * varN ys ∧ 0 < covN xs ys
      ∧ varN xs * varN ys < 4 * covN xs ys ^ 2)
  · have hlab : corrLabel xs ys = corr_strong := by
      unfold corrLabel
      rw [if_pos hS]
    rw [hlab]
    refine ⟨⟨fun _ => hstrong.2 hS, fun _ => rfl⟩, ?_, ?_⟩
    · constructor
      · intro h
        exact absurd h (by decide)
      · rintro ⟨-, hns⟩
        exact absurd (hstrong.2 hS) hns
    · constructor
      · intro h
        exact absurd h (by decide)
      · intro hle
        exact absurd (hstrong.2 hS) (not_lt.2 (le_trans hle (by norm_num)))
  · by_cases hM : (0 < varN xs * varN ys ∧ 0 < covN xs ys
        ∧ varN xs * varN ys < 25 * covN xs ys ^ 2)
    · have hlab : corrLabel xs ys = corr_moderate := by
        unfold corrLabel
        rw [if_neg hS, if_pos hM]
      rw [hlab]
      refine ⟨?_, ⟨fun _ => ⟨hmod.2 hM, fun h12 => hS (hstrong.1 h12)⟩, fun _ => rfl⟩, ?_⟩
      · constructor
        · intro h
          exact absurd h (by decide)
        · intro h
          exact absurd (hstrong.1 h) hS
      · constructor
        · intro h
          exact absurd h (by decide)
        · intro hle
          exact absurd (hmod.2 hM) (not_lt.2 hle)
    · have hlab : corrLabel xs ys = corr_weak := by
        unfold corrLabel
        rw [if_neg hS, if_neg hM]
      rw [hlab]
      refine ⟨?_, ?_, ⟨fun _ => ?_, fun _ => rfl⟩⟩
      · constructor
        · intro h
          exact absurd h (by decide)
        · intro h
          exact absurd (hstrong.1 h) hS
      · constructor
        · intro h
          exact absurd h (by decide)
        · rintro ⟨h5, -⟩
          exact absurd (hmod.1 h5) hM
      · by_contra hgt
        push_neg at hgt
        exact hM (hmod.1 hgt)

/-- Concrete table for the C7 counterexample: one row whose area value
`"N/D"` is unparseable, so no valid rows remain. -/
def c7Table : Table :=
  { cols := ["municipio", "rea_total_afectada_ha", "causa_del_incendio"]
    rows := [[.vstr "X", .vstr "N/D", .vstr "c"]] }

/-- C7 counterexample: the Municipal Aggregator output has fewer than 2
rows (it is empty), yet the correlation chart does not report the
insufficient-data message — with no valid area rows it reports the
no-valid-data message instead. -/
theorem correlation_message_mismatch :
    (∃ out : Table, create_correlation_data c7Table = .ok out ∧ out.rows.length < 2)
      ∧ render_correlation_chart c7Table ≠ .ok .insufficient :=
  ⟨⟨{ cols := [], rows := [] }, by with_unfolding_all decide, by decide⟩,
    by with_unfolding_all decide⟩

/-- Specification of the Correlation Metric: with at least one valid area
row, the chart reports insufficient data exactly when the municipal
aggregate has fewer than 2 rows, and with 2 or more rows it reports the
three-tier label of the Pearson coefficient between incident count and
total area (strong positive above 0.5, moderate positive above 0.2, weak
otherwise); with no valid rows it reports the no-valid-data message while
the aggregator returns an empty table. -/
def CorrSpec (t : Table) : Prop :=
  (¬ ((validTable t).rows.isEmpty = true) →
      ∃ out : Table, create_correlation_data t = .ok out
        ∧ (out.rows.length < 2 → render_correlation_chart t = .ok .insufficient)
        ∧ (2 ≤ out.rows.length →
            render_correlation_chart t
                = .ok (.computed (corrLabel (aggCounts out) (aggTotals out)))
              ∧ (corrLabel (aggCounts out) (aggTotals out) = corr_strong ↔
                  (1 / 2 : ℝ) < (covN (aggCounts out) (aggTotals out) : ℝ)
                    / Real.sqrt ((varN (aggCounts out) : ℝ) * (varN (aggTotals out) : ℝ)))
              ∧ (corrLabel (aggCounts out) (aggTotals out) = corr_moderate ↔
                  ((1 / 5 : ℝ) < (covN (aggCounts out) (aggTotals out) : ℝ)
                      / Real.sqrt ((varN (aggCounts out) : ℝ) * (varN (aggTotals out) : ℝ))
                    ∧ ¬ ((1 / 2 : ℝ) < (covN (aggCounts out) (aggTotals out) : ℝ)
                      / Real.sqrt ((varN (aggCounts out) : ℝ) * (varN (aggTotals out) : ℝ)))))
              ∧ (corrLabel (aggCounts out) (aggTotals out) = corr_weak ↔
                  (covN (aggCounts out) (aggTotals out) : ℝ)
                      / Real.sqrt ((varN (aggCounts out) : ℝ) * (varN (aggTotals out) : ℝ))
                    ≤ (1 / 5 : ℝ))))
    ∧ ((validTable t).rows.isEmpty = true →
        render_correlation_chart t = .ok .noValidData
          ∧ create_correlation_data t = .ok { cols := [], rows := [] })

/-- C7 (amended): on every table with the municipality, area and cause
columns, the Correlation Metric reports "insufficient data" exactly when
valid area rows exist but the municipal aggregate has fewer than 2 rows;
with no valid rows it reports "no valid data" instead; and with 2 or more
aggregate rows it computes and labels the Pearson coefficient between
incident count and total area (> 0.5 strong positive, > 0.2 moderate
positive, otherwise weak — a zero variance product giving the weak label,
matching the NaN coefficient whose comparisons are false). -/
theorem render_correlation_spec (t : Table) (hm : "municipio" ∈ t.cols)
    (hr : "rea_total_afectada_ha" ∈ t.cols) (hc : "causa_del_incendio" ∈ t.cols) :
    CorrSpec t := by
  constructor
  · intro hne
    have hnb : (validTable t).rows.isEmpty = false := by
      cases h : (validTable t).rows.isEmpty
      · rfl
      · exact absurd h hne
    have hcd : create_correlation_data t = .ok (aggregateByMunicipio (validTable t)) := by
      unfold create_correlation_data
      rw [if_pos hr, if_neg (by simp [hnb]), if_pos hm, if_pos hc]
    refine ⟨_, hcd, ?_, ?_⟩
    · intro hlt
      unfold render_correlation_chart
      rw [if_pos ⟨hm, hr⟩, if_neg (by simp [hnb]), if_pos hc, if_neg (by omega)]
    · intro hge
      refine ⟨?_, (corrLabel_pearson _ _).1, (corrLabel_pearson _ _).2.1,
        (corrLabel_pearson _ _).2.2⟩
      unfold render_correlation_chart
      rw [if_pos ⟨hm, hr⟩, if_neg (by simp [hnb]), if_pos hc, if_pos (by omega)]
  · intro he
    constructor
    · unfold render_correlation_chart
      rw [if_pos ⟨hm, hr⟩, if_pos he]
    · unfold create_correlation_data
      rw [if_pos hr, if_pos he]

/-- Concrete table (two municipalities, distinct counts) for the C7
witness. -/
def c7Witness : Table :=
  { cols := ["municipio", "rea_total_afectada_ha", "causa_del_incendio"]
    rows := [[.vstr "Sogamoso", .vstr "10", .vstr "Quema"],
             [.vstr "Samacá", .vstr "2", .vstr "Accidental"],
             [.vstr "Sogamoso", .vstr "5", .vstr "Quema"]] }

theorem render_correlation_spec_witness :
    ("municipio" ∈ c7Witness.cols ∧ "rea_total_afectada_ha" ∈ c7Witness.cols
        ∧ "causa_del_incendio" ∈ c7Witness.cols)
      ∧ CorrSpec c7Witness :=
  ⟨⟨by decide, by decide, by decide⟩,
    render_correlation_spec c7Witness (by decide) (by decide) (by decide)⟩
